import Mathlib

/-!
Verification of the AI-SQL-AGENT repository core (db_connector.py and
sql_genrator.py) against its natural-language specification.

The Python code is shallowly embedded: pure string manipulation is
translated to Lean functions, and every call that touches the database
(pandas `read_sql_query` against a SQLAlchemy engine) is abstracted as an
oracle `String → Except String _` mapping the SQL query text either to its
result rows or to the message of the exception it raised.  Python string
methods used by the code (`strip`, `startswith`, `replace`) are modelled
over `List Char` with Python semantics (`replace` substitutes every
non-overlapping occurrence, scanning left to right).
-/

/-- Model of Python `str.strip()`: drop whitespace from both ends. -/
def pyStrip (s : List Char) : List Char :=
  ((s.dropWhile Char.isWhitespace).reverse.dropWhile Char.isWhitespace).reverse

/-- Model of Python `str.startswith(pat)`. -/
def pyStartswith (pat s : List Char) : Bool :=
  pat.isPrefixOf s

/-- Fuel-indexed worker for `pyReplace`; `fuel` bounds the number of scanned
positions so the recursion is structural.  `pat` is assumed non-empty. -/
def pyReplaceFuel (pat rep : List Char) : Nat → List Char → List Char
  | 0, s => s
  | _ + 1, [] => []
  | fuel + 1, c :: rest =>
    if pat.isPrefixOf (c :: rest) then
      rep ++ pyReplaceFuel pat rep fuel (rest.drop (pat.length - 1))
    else
      c :: pyReplaceFuel pat rep fuel rest

/-- Model of Python `str.replace(pat, rep)`: replace every non-overlapping
occurrence of `pat`, scanning left to right.  Python with an empty pattern
interleaves `rep` everywhere; the code only ever replaces the non-empty
literals three-backticks-sql and three-backticks, so that corner is mapped
to the identity. -/
def pyReplace (s pat rep : List Char) : List Char :=
  match pat with
  | [] => s
  | _ :: _ => pyReplaceFuel pat rep s.length s

/-- Embedding of `generate_sql_query` (sql_genrator.py lines 50-56), applied
to the text already returned by the external LLM call (`response.text`).
The code strips the text, and when it starts with a three-backtick-sql
fence it deletes every occurrence of the fence openers/closers with
`str.replace` and strips again. -/
def generate_sql_query (response_text : List Char) : List Char :=
  let sql_query := pyStrip response_text
  if pyStartswith "```sql".data sql_query then
    pyStrip (pyReplace (pyReplace sql_query "```sql".data []) "```".data [])
  else
    sql_query

/-- Model of Python `a or b` on connection-profile fields: `None` and the
empty string are falsy, so either falls through to the environment value. -/
def pyOr (arg env : Option String) : Option String :=
  match arg with
  | none => env
  | some s => if s = "" then env else some s

/-- Python f-string rendering of an optional field: `None` prints as the
four-character text `None`. -/
def pyFmt : Option String → String
  | some s => s
  | none => "None"

/-- Environment-variable defaults read by `DatabaseConnector.__init__`
(DB_PATH, DB_HOST, DB_NAME, DB_USER, DB_PASSWORD, DB_PORT). -/
structure Env where
  db_path : Option String
  db_host : Option String
  db_name : Option String
  db_user : Option String
  db_password : Option String
  db_port : Option String

/-- Embedding of `DatabaseConnector._create_engine` (db_connector.py lines
36-57).  The engine is modelled by the connection-string URL handed to
SQLAlchemy `create_engine`; an unsupported `db_type` raises `ValueError`,
which the surrounding handler catches, returning `None`. -/
def create_engine (db_type : String)
    (db_path db_host db_name db_user db_password db_port : Option String) :
    Option String :=
  if db_type = "sqlite" then
    some ("sqlite:///" ++ pyFmt db_path)
  else if db_type = "mysql" then
    some ("mysql+mysqlconnector://" ++ pyFmt db_user ++ ":" ++ pyFmt db_password
      ++ "@" ++ pyFmt db_host ++ ":" ++ pyFmt db_port ++ "/" ++ pyFmt db_name)
  else if db_type = "postgresql" then
    some ("postgresql://" ++ pyFmt db_user ++ ":" ++ pyFmt db_password
      ++ "@" ++ pyFmt db_host ++ ":" ++ pyFmt db_port ++ "/" ++ pyFmt db_name)
  else
    none

/-- Embedding of `DatabaseConnector.__init__` (db_connector.py lines 10-34):
each field is the given argument `or` its environment default, and the
engine is whatever `_create_engine` yields.  No field validation happens. -/
def connector_init (db_type : String)
    (db_path db_host db_name db_user db_password db_port : Option String)
    (env : Env) : Option String :=
  create_engine db_type
    (pyOr db_path env.db_path) (pyOr db_host env.db_host)
    (pyOr db_name env.db_name) (pyOr db_user env.db_user)
    (pyOr db_password env.db_password) (pyOr db_port env.db_port)

/-- Result of `execute_query`: a pandas DataFrame (abstracted as `α`) or the
error string the method returns instead. -/
inductive QueryResult (α : Type) where
  | table (df : α)
  | error (msg : String)
deriving DecidableEq, Repr

/-- Embedding of `DatabaseConnector.execute_query` (db_connector.py lines
59-78).  `run` is the oracle for `pd.read_sql_query(text(query), engine)`:
it yields the materialized rows, or the message of the raised exception,
which the method's handler converts to a returned string. -/
def execute_query {α : Type} (engine : Option String)
    (run : String → Except String α) (query : String) : QueryResult α :=
  match engine with
  | none => .error "Database connection not established."
  | some _ =>
    match run query with
    | .ok df => .table df
    | .error e => .error ("Error executing query: " ++ e)

/-- Liveness query chosen by `test_connection` (db_connector.py lines
200-205): the `else` branch covers everything that is not sqlite/mysql. -/
def test_query_for (db_type : String) : String :=
  if db_type = "sqlite" then "SELECT sqlite_version();"
  else if db_type = "mysql" then "SELECT VERSION();"
  else "SELECT version();"

/-- Embedding of `DatabaseConnector.test_connection` (db_connector.py lines
193-211).  `run` is the oracle for running the liveness query. -/
def test_connection (engine : Option String)
    (run : String → Except String Unit) (db_type : String) : Bool × String :=
  match engine with
  | none => (false, "Database engine not created.")
  | some _ =>
    match run (test_query_for db_type) with
    | .ok _ => (true, "Connection successful.")
    | .error e => (false, "Connection failed: " ++ e)

/-- Embedding of `DatabaseConnector.close` (db_connector.py lines 213-216),
modelled by the list of backend actions it performs: `dispose` when an
engine exists, nothing otherwise. -/
def close (engine : Option String) : List String :=
  match engine with
  | none => []
  | some _ => ["dispose"]

/-- Table-listing catalog query of `get_tables` for SQLITE (db_connector.py
line 84). -/
def sqlite_master_tables : String :=
  "SELECT name FROM sqlite_master WHERE type=\x27table\x27;"

/-- Table-enumeration catalog query of `get_schema_info` for SQLITE
(db_connector.py line 104); unlike `get_tables` it filters out the
`sqlite_` system prefix. -/
def sqlite_master_tables_nosys : String :=
  "SELECT name FROM sqlite_master WHERE type=\x27table\x27 AND name NOT LIKE \x27sqlite_%\x27;"

/-- Table-listing catalog query of `get_tables` for MYSQL (line 86). -/
def show_tables : String := "SHOW TABLES;"

/-- Table-enumeration catalog query of `get_schema_info` for MYSQL (line
132), scoped to the connected database name. -/
def show_tables_from (db_name : String) : String :=
  "SHOW TABLES FROM " ++ db_name ++ ";"

/-- Catalog query for POSTGRESQL, textually identical at both call sites
(lines 88 and 134). -/
def pg_tables_listing : String :=
  "SELECT table_name FROM information_schema.tables WHERE table_schema = \x27public\x27;"

/-- The dialect-to-catalog-query mapping used by `get_tables`
(db_connector.py lines 83-90); `none` models the "Unsupported database
type." early return. -/
def get_tables_query (db_type : String) : Option String :=
  if db_type = "sqlite" then some sqlite_master_tables
  else if db_type = "mysql" then some show_tables
  else if db_type = "postgresql" then some pg_tables_listing
  else none

/-- The dialect-to-catalog-query mapping used by `get_schema_info` to
enumerate tables (lines 104, 131-134); `none` models the fall-through for
unsupported dialects (no branch taken, empty report). -/
def schema_tables_query (db_type db_name : String) : Option String :=
  if db_type = "sqlite" then some sqlite_master_tables_nosys
  else if db_type = "mysql" then some (show_tables_from db_name)
  else if db_type = "postgresql" then some pg_tables_listing
  else none

/-- Result of `get_tables`: a DataFrame of names or a returned message. -/
inductive TablesResult (α : Type) where
  | df (t : α)
  | msg (s : String)
deriving DecidableEq, Repr

/-- Embedding of `DatabaseConnector.get_tables` (db_connector.py lines
80-95). -/
def get_tables {α : Type} (db_type : String)
    (run : String → Except String α) : TablesResult α :=
  match get_tables_query db_type with
  | none => .msg "Unsupported database type."
  | some q =>
    match run q with
    | .ok t => .df t
    | .error e => .msg ("Error fetching tables: " ++ e)

/-- One row of `PRAGMA table_info` as consumed by the code: column name,
declared type, and the primary-key ordinal `pk` (0 = not part of the
primary key; 1, 2, ... = position within the primary key). -/
structure SqliteColumn where
  name : String
  type : String
  pk : Nat
deriving DecidableEq, Repr

/-- One row of MySQL `DESCRIBE` as consumed by the code: `Field`, `Type`
and `Key` (primary key columns carry `"PRI"`). -/
structure MysqlColumn where
  field : String
  type : String
  key : String
deriving DecidableEq, Repr

/-- One row of the PostgreSQL column query as consumed by the code:
`column_name`, `data_type`, and the computed `key` column that is either
`"PRIMARY KEY"` or the empty string. -/
structure PgColumn where
  column_name : String
  data_type : String
  key : String
deriving DecidableEq, Repr

/-- Column-introspection pragma for one SQLITE table (line 109). -/
def pragma_query (table_name : String) : String :=
  "PRAGMA table_info(\x27" ++ table_name ++ "\x27);"

/-- Column query for one MYSQL table (line 141). -/
def describe_query (table_name : String) : String :=
  "DESCRIBE " ++ table_name ++ ";"

/-- Column query for one POSTGRESQL table (lines 156-168): the literal
f-string body with the table name interpolated at its two placeholders. -/
def pg_columns_query (table_name : String) : String :=
  "\n                            SELECT column_name, data_type, \n                                   CASE WHEN EXISTS (\n                                       SELECT 1 FROM information_schema.table_constraints tc\n                                       JOIN information_schema.key_column_usage kcu \n                                         ON tc.constraint_name = kcu.constraint_name\n                                       WHERE tc.constraint_type = \x27PRIMARY KEY\x27 \n                                         AND tc.table_name = \x27"
  ++ table_name ++
  "\x27\n                                         AND kcu.column_name = columns.column_name\n                                   ) THEN \x27PRIMARY KEY\x27 ELSE \x27\x27 END as key\n                            FROM information_schema.columns\n                            WHERE table_name = \x27"
  ++ table_name ++
  "\x27;\n                        "

/-- Row-count query built at the two count call sites: single-quoted table
identifier for SQLITE (line 123), bare interpolation for the mysql and
postgresql branch (line 182). -/
def count_query (db_type table_name : String) : String :=
  if db_type = "sqlite" then
    "SELECT COUNT(*) as count FROM \x27" ++ table_name ++ "\x27;"
  else
    "SELECT COUNT(*) as count FROM " ++ table_name ++ ";"

/-- Oracle bundle for every metadata query `get_schema_info` issues, keyed
by the SQL text and split by the row shape the code reads off the
resulting DataFrame.  An `Except.error` is a raised exception. -/
structure Backend where
  run_names : String → Except String (List String)
  run_sqlite_cols : String → Except String (List SqliteColumn)
  run_describe : String → Except String (List MysqlColumn)
  run_pg_cols : String → Except String (List PgColumn)
  run_count : String → Except String Nat

/-- The `PRIMARY KEY` marker computed for a SQLITE column (line 118): the
code compares the pragma ordinal against 1, not against 0. -/
def sqlite_pk_marker (pk : Nat) : String :=
  if pk = 1 then "PRIMARY KEY" else ""

/-- One rendered SQLITE column line without its newline (line 120): note
the space separating the type from the (possibly empty) marker is always
emitted. -/
def sqlite_col_line (c : SqliteColumn) : String :=
  "  - " ++ c.name ++ " (" ++ c.type ++ ") " ++ sqlite_pk_marker c.pk

/-- One rendered SQLITE column line including its newline (line 120). -/
def render_sqlite_col (c : SqliteColumn) : String :=
  sqlite_col_line c ++ "\n"

/-- One rendered MYSQL column line (lines 148-153). -/
def render_mysql_col (c : MysqlColumn) : String :=
  "  - " ++ c.field ++ " (" ++ c.type ++ ") "
    ++ (if c.key = "PRI" then "PRIMARY KEY" else "") ++ "\n"

/-- One rendered POSTGRESQL column line (lines 174-179): the marker is the
`key` column of the query result itself. -/
def render_pg_col (c : PgColumn) : String :=
  "  - " ++ c.column_name ++ " (" ++ c.data_type ++ ") " ++ c.key ++ "\n"

/-- The text block `get_schema_info` accumulates for one table: header,
column lines, and `Total rows:` footer (lines 112-125 and 144-184). -/
def table_block (table_name : String) (col_lines : List String) (count : Nat) :
    String :=
  "Table: " ++ table_name ++ "\nColumns:\n" ++ String.join col_lines
    ++ "Total rows: " ++ toString count ++ "\n"

/-- The SQLITE per-table step of `get_schema_info` (lines 107-127): fetch
the pragma rows, then the row count, and render the block; the first
raised exception aborts. -/
def sqlite_table_step (b : Backend) (table_name : String) :
    Except String String := do
  let columns ← b.run_sqlite_cols (pragma_query table_name)
  let count ← b.run_count (count_query "sqlite" table_name)
  pure (table_block table_name (columns.map render_sqlite_col) count)

/-- The MYSQL per-table step of `get_schema_info` (lines 140-184). -/
def mysql_table_step (b : Backend) (table_name : String) :
    Except String String := do
  let columns ← b.run_describe (describe_query table_name)
  let count ← b.run_count (count_query "mysql" table_name)
  pure (table_block table_name (columns.map render_mysql_col) count)

/-- The POSTGRESQL per-table step of `get_schema_info` (lines 155-184). -/
def pg_table_step (b : Backend) (table_name : String) :
    Except String String := do
  let columns ← b.run_pg_cols (pg_columns_query table_name)
  let count ← b.run_count (count_query "postgresql" table_name)
  pure (table_block table_name (columns.map render_pg_col) count)

/-- The `schema_info` list accumulated by `get_schema_info` (lines
99-186) inside its try block: enumerate tables with the dialect's catalog
query, then run the per-table step over them in catalog order; a dialect
that matches no branch leaves the list empty.  The `Except` threading is
the single surrounding `try`: the first raised exception aborts the whole
accumulation. -/
def schema_blocks (db_type db_name : String) (b : Backend) :
    Except String (List String) :=
  if db_type = "sqlite" then do
    let tables ← b.run_names sqlite_master_tables_nosys
    tables.mapM (sqlite_table_step b)
  else if db_type = "mysql" then do
    let tables ← b.run_names (show_tables_from db_name)
    tables.mapM (mysql_table_step b)
  else if db_type = "postgresql" then do
    let tables ← b.run_names pg_tables_listing
    tables.mapM (pg_table_step b)
  else
    pure []

/-- Embedding of `DatabaseConnector.get_schema_info` (db_connector.py lines
97-191): join the accumulated blocks with a newline (each block already
ends in one, so consecutive blocks are separated by a blank line), or
return the catch-all error string. -/
def get_schema_info (db_type db_name : String) (b : Backend) : String :=
  match schema_blocks db_type db_name b with
  | .ok blocks => String.intercalate "\n" blocks
  | .error e => "Error fetching schema information: " ++ e

/-- Projection of the error text out of a `schema_blocks` outcome. -/
def errOf : Except String (List String) → String
  | .error e => e
  | .ok _ => ""

/-- A backend whose every metadata query succeeds: the catalog query yields
`tables`, column queries are answered by `cols`, count queries by `cnt`. -/
def mkOkBackend (tables : List String) (cols : String → List SqliteColumn)
    (cnt : String → Nat) : Backend where
  run_names := fun _ => .ok tables
  run_sqlite_cols := fun q => .ok (cols q)
  run_describe := fun _ => .ok []
  run_pg_cols := fun _ => .ok []
  run_count := fun q => .ok (cnt q)

/-- Concrete database: one table `t` with a composite primary key over
columns `a` (ordinal 1) and `b` (ordinal 2), holding 3 rows. -/
def cexBackend1 : Backend :=
  mkOkBackend ["t"]
    (fun _ => [⟨"a", "INTEGER", 1⟩, ⟨"b", "TEXT", 2⟩]) (fun _ => 3)

/-- Concrete database: one table `t` with a single non-primary-key column
`b` and no rows. -/
def cexBackend6 : Backend :=
  mkOkBackend ["t"] (fun _ => [⟨"b", "TEXT", 0⟩]) (fun _ => 0)

/-- Concrete backend whose table enumeration succeeds but whose column
pragma raises with message `boom`. -/
def failBackend : Backend where
  run_names := fun _ => .ok ["t"]
  run_sqlite_cols := fun _ => .error "boom"
  run_describe := fun _ => .ok []
  run_pg_cols := fun _ => .ok []
  run_count := fun _ => .ok 0

/-- An environment with none of the DB_* variables set. -/
def emptyEnv : Env := ⟨none, none, none, none, none, none⟩

/-- If `f` succeeds on every element of `l` with value `g a`, then `mapM`
over `Except` succeeds with the mapped list. -/
theorem mapM_ok_of_forall {α β : Type} (l : List α) (f : α → Except String β)
    (g : α → β) (h : ∀ a ∈ l, f a = .ok (g a)) :
    l.mapM f = .ok (l.map g) := by
  induction l with
  | nil => rfl
  | cons a t ih =>
    rw [List.mapM_cons, h a (List.mem_cons_self a t),
      ih (fun x hx => h x (List.mem_cons_of_mem a hx))]
    rfl

/-- If `f` fails on some element of `l`, then `mapM` over `Except` fails
(with the message of whichever failure is hit first). -/
theorem mapM_error_of_mem {α β : Type} (l : List α) (f : α → Except String β)
    (a : α) (e : String) (ha : a ∈ l) (hf : f a = .error e) :
    ∃ m, l.mapM f = .error m := by
  induction l with
  | nil => cases ha
  | cons b t ih =>
    cases hfb : f b with
    | error m =>
      refine ⟨m, ?_⟩
      rw [List.mapM_cons, hfb]
      rfl
    | ok v =>
      rcases List.mem_cons.mp ha with h1 | h2
      · rw [← h1] at hfb
        rw [hfb] at hf
        cases hf
      · obtain ⟨m, hm⟩ := ih h2
        refine ⟨m, ?_⟩
        rw [List.mapM_cons, hfb, hm]
        rfl

/-- `schema_blocks` on the sqlite branch is the catalog query bound into the
per-table steps. -/
theorem schema_blocks_sqlite (db_name : String) (b : Backend) :
    schema_blocks "sqlite" db_name b
      = (b.run_names sqlite_master_tables_nosys).bind
          (fun tables => tables.mapM (sqlite_table_step b)) := rfl

/-- `schema_blocks` on the mysql branch. -/
theorem schema_blocks_mysql (db_name : String) (b : Backend) :
    schema_blocks "mysql" db_name b
      = (b.run_names (show_tables_from db_name)).bind
          (fun tables => tables.mapM (mysql_table_step b)) := rfl

/-- `schema_blocks` on the postgresql branch. -/
theorem schema_blocks_pg (db_name : String) (b : Backend) :
    schema_blocks "postgresql" db_name b
      = (b.run_names pg_tables_listing).bind
          (fun tables => tables.mapM (pg_table_step b)) := rfl

/-- On an all-successful sqlite backend the accumulated blocks are exactly
the rendered tables, in catalog order. -/
theorem schema_blocks_mkOk (tables : List String)
    (cols : String → List SqliteColumn) (cnt : String → Nat) (db_name : String) :
    schema_blocks "sqlite" db_name (mkOkBackend tables cols cnt)
      = .ok (tables.map fun t =>
          table_block t ((cols (pragma_query t)).map render_sqlite_col)
            (cnt (count_query "sqlite" t))) := by
  have h1 : schema_blocks "sqlite" db_name (mkOkBackend tables cols cnt)
      = tables.mapM (sqlite_table_step (mkOkBackend tables cols cnt)) := rfl
  rw [h1]
  exact mapM_ok_of_forall tables _ _ (fun t _ => rfl)

/-- On an all-successful sqlite backend the report is the newline-join of
the rendered tables. -/
theorem get_schema_info_mkOk (tables : List String)
    (cols : String → List SqliteColumn) (cnt : String → Nat) (db_name : String) :
    get_schema_info "sqlite" db_name (mkOkBackend tables cols cnt)
      = String.intercalate "\n" (tables.map fun t =>
          table_block t ((cols (pragma_query t)).map render_sqlite_col)
            (cnt (count_query "sqlite" t))) := by
  unfold get_schema_info
  rw [schema_blocks_mkOk]

/-- When `schema_blocks` fails, the report is the catch-all error string. -/
theorem get_schema_info_of_error (db_type db_name : String) (b : Backend)
    (e : String) (h : schema_blocks db_type db_name b = .error e) :
    get_schema_info db_type db_name b
      = "Error fetching schema information: "
          ++ errOf (schema_blocks db_type db_name b) := by
  unfold get_schema_info errOf
  rw [h]

/-- A list of characters whose last character is a space does not admit the
text `PRIMARY KEY` as a suffix (that text ends in `Y`). -/
theorem primary_key_not_suffix_of_last_space (l : List Char)
    (h : l.getLast? = some ' ') : ¬ ("PRIMARY KEY".data <:+ l) := by
  rintro ⟨t, ht⟩
  have hm : "PRIMARY KEY".data = "PRIMARY KE".data ++ ['Y'] := rfl
  rw [hm, ← List.append_assoc] at ht
  have hy := congrArg List.getLast? ht
  rw [List.getLast?_concat] at hy
  rw [h] at hy
  cases hy

/-- The character data of a string ending in the two characters `) ` has a
space as its last character. -/
theorem data_last_space (s : String) :
    ((s ++ ") ").data).getLast? = some ' ' := by
  rw [String.data_append]
  have h2 : (") ".data) = [')'] ++ [' '] := rfl
  rw [h2, ← List.append_assoc, List.getLast?_concat]

/-- C1 (corrected): the rendered SQLITE column line carries the
`PRIMARY KEY` marker exactly when the pragma primary-key ordinal equals 1 —
not whenever it is non-zero.  Of a composite primary key only the
ordinal-1 column is marked; ordinals 2, 3, ... render without the marker. -/
theorem sqlite_pk_mark_iff_ordinal_one (c : SqliteColumn) :
    ("PRIMARY KEY".data <:+ (sqlite_col_line c).data) ↔ c.pk = 1 := by
  unfold sqlite_col_line sqlite_pk_marker
  by_cases h : c.pk = 1
  · rw [if_pos h]
    constructor
    · intro _
      exact h
    · intro _
      rw [String.data_append]
      exact List.suffix_append _ _
  · rw [if_neg h]
    constructor
    · intro hsuf
      exfalso
      refine primary_key_not_suffix_of_last_space
        (("  - " ++ c.name ++ " (" ++ c.type ++ ") " ++ "").data) ?_ hsuf
      rw [String.append_empty]
      exact data_last_space ("  - " ++ c.name ++ " (" ++ c.type)
    · intro h1
      exact absurd h1 h

/-- C1 counterexample: on a table whose composite primary key gives column
`b` the pragma ordinal 2 (non-zero), the full schema report renders `b`
without the `PRIMARY KEY` marker, refuting "non-zero ordinal implies
marked". -/
theorem sqlite_composite_pk_unmarked_cex :
    get_schema_info "sqlite" "" cexBackend1
      = "Table: t\nColumns:\n  - a (INTEGER) PRIMARY KEY\n  - b (TEXT) \nTotal rows: 3\n"
    ∧ (2 : Nat) ≠ 0
    ∧ ¬ ("PRIMARY KEY".data <:+ (sqlite_col_line ⟨"b", "TEXT", 2⟩).data) := by
  refine ⟨rfl, by decide, by decide⟩

/-- C2 (amended): `generate_sql_query` trims the LLM output; when the
trimmed output starts with a three-backtick-sql fence it deletes every
occurrence of the fence opener and of three backticks anywhere in the text
(not only the leading/trailing fence) and trims again; output not starting
with the fence is passed through unchanged after trimming, including when
it contains fence markers in the middle. -/
theorem fence_stripping (s : List Char) :
    (pyStartswith "```sql".data (pyStrip s) = false →
      generate_sql_query s = pyStrip s)
    ∧ (pyStartswith "```sql".data (pyStrip s) = true →
      generate_sql_query s
        = pyStrip (pyReplace (pyReplace (pyStrip s) "```sql".data []) "```".data []))
    ∧ generate_sql_query "```sql\nSELECT 1;\n```".data = "SELECT 1;".data
    ∧ generate_sql_query "SELECT 1;".data = "SELECT 1;".data
    ∧ generate_sql_query "SELECT x; -- ``` note".data = "SELECT x; -- ``` note".data := by
  refine ⟨fun h => ?_, fun h => ?_, by decide, by decide, by decide⟩
  · unfold generate_sql_query
    simp [h]
  · unfold generate_sql_query
    simp [h]

/-- C2 witness: a plain query passes through `generate_sql_query`
unchanged. -/
theorem fence_stripping_witness :
    pyStartswith "```sql".data (pyStrip "SELECT 2;".data) = false
    ∧ generate_sql_query "SELECT 2;".data = pyStrip "SELECT 2;".data :=
  ⟨by decide, (fence_stripping "SELECT 2;".data).1 (by decide)⟩

/-- C2 counterexample: for a fenced output that also contains three
backticks inside the fenced SQL text, the code does not yield the inner
SQL text — the inner markers are deleted too (`str.replace` removes all
occurrences). -/
theorem fence_replace_all_cex :
    generate_sql_query "```sql\nSELECT 1; -- ``` note\n```".data
      = "SELECT 1; --  note".data
    ∧ "SELECT 1; --  note".data ≠ "SELECT 1; -- ``` note".data := by
  constructor
  · decide
  · decide

/-- C3 (amended): `test_connection` returns `(true, "Connection
successful.")` when the dialect liveness query succeeds, and
`(false, "Connection failed: " ++ cause)` when it raises; but when the
engine was never created it returns `(false, "Database engine not
created.")`, which does not carry the `Connection failed: ` prefix. -/
theorem test_connection_contract :
    (∀ (run : String → Except String Unit) (db_type : String),
      test_connection none run db_type
        = (false, "Database engine not created."))
    ∧ (∀ (url : String) (run : String → Except String Unit) (db_type : String),
        run (test_query_for db_type) = Except.ok () →
        test_connection (some url) run db_type
          = (true, "Connection successful."))
    ∧ (∀ (url : String) (run : String → Except String Unit)
        (db_type cause : String),
        run (test_query_for db_type) = Except.error cause →
        test_connection (some url) run db_type
          = (false, "Connection failed: " ++ cause)) := by
  refine ⟨fun _ _ => rfl, fun url run dt h => ?_, fun url run dt c h => ?_⟩
  · unfold test_connection
    rw [h]
  · unfold test_connection
    rw [h]

/-- C3 witness: a failing liveness query on a live engine yields the
prefixed failure message. -/
theorem test_connection_contract_witness :
    test_connection (some "sqlite:///db.sqlite")
      (fun _ => Except.error "boom") "sqlite"
      = (false, "Connection failed: " ++ "boom") :=
  test_connection_contract.2.2 "sqlite:///db.sqlite"
    (fun _ => Except.error "boom") "sqlite" "boom" rfl

/-- C3 counterexample: with the engine never created, the returned message
is `Database engine not created.`, which does not begin with
`Connection failed: `. -/
theorem test_connection_none_msg_cex :
    test_connection none (fun _ => Except.ok ()) "sqlite"
      = (false, "Database engine not created.")
    ∧ ("Connection failed: ".data.isPrefixOf
        "Database engine not created.".data) = false := by
  exact ⟨rfl, by decide⟩

/-- C4 (amended): `DatabaseConnector` construction performs no validation
of dialect-required fields.  For each supported dialect an engine URL is
built whatever the fields hold (absent values are interpolated as the text
`None`); there is no ConfigError value anywhere — the only construction
failure is an unsupported dialect tag, which silently yields no engine. -/
theorem init_no_validation :
    (∀ (p h n u pw po : Option String) (env : Env),
      ∃ url, connector_init "sqlite" p h n u pw po env = some url)
    ∧ (∀ (p h n u pw po : Option String) (env : Env),
      ∃ url, connector_init "mysql" p h n u pw po env = some url)
    ∧ (∀ (p h n u pw po : Option String) (env : Env),
      ∃ url, connector_init "postgresql" p h n u pw po env = some url)
    ∧ (∀ (db_type : String) (p h n u pw po : Option String) (env : Env),
        db_type ≠ "sqlite" → db_type ≠ "mysql" → db_type ≠ "postgresql" →
        connector_init db_type p h n u pw po env = none) := by
  refine ⟨fun p h n u pw po env => ⟨_, rfl⟩,
    fun p h n u pw po env => ⟨_, rfl⟩,
    fun p h n u pw po env => ⟨_, rfl⟩,
    fun db_type p h n u pw po env h1 h2 h3 => ?_⟩
  unfold connector_init create_engine
  rw [if_neg h1, if_neg h2, if_neg h3]

/-- C4 witness: an unsupported dialect tag yields no engine instead of a
distinct configuration error. -/
theorem init_no_validation_witness :
    connector_init "mongodb" none none none none none none emptyEnv = none :=
  init_no_validation.2.2.2 "mongodb" none none none none none none emptyEnv
    (by decide) (by decide) (by decide)

/-- C4 counterexample: a sqlite profile whose required `db_path` is the
empty string (and absent from the environment) is not rejected with a
configuration error — construction builds the connection URL
`sqlite:///None` and hands it to the engine factory. -/
theorem init_missing_field_cex :
    pyOr (some "") emptyEnv.db_path = none
    ∧ connector_init "sqlite" (some "") none none none none none emptyEnv
        = some "sqlite:///None" :=
  ⟨rfl, rfl⟩

/-- C5 (amended): only for POSTGRESQL do `get_tables` and
`get_schema_info` use the identical catalog query; for SQLITE the
introspection side additionally excludes `sqlite_`-prefixed names, and for
MYSQL it scopes `SHOW TABLES` to the connected database, so the two call
sites are not served by one shared dialect-to-query mapping. -/
theorem catalog_query_drift :
    (∀ n, schema_tables_query "postgresql" n = get_tables_query "postgresql")
    ∧ get_tables_query "sqlite" = some sqlite_master_tables
    ∧ (∀ n, schema_tables_query "sqlite" n = some sqlite_master_tables_nosys)
    ∧ sqlite_master_tables ≠ sqlite_master_tables_nosys
    ∧ get_tables_query "mysql" = some show_tables
    ∧ (∀ n, schema_tables_query "mysql" n = some (show_tables_from n))
    ∧ show_tables_from "mydb" ≠ show_tables := by
  refine ⟨fun n => rfl, rfl, fun n => rfl, by decide, rfl, fun n => rfl,
    by decide⟩

/-- C5 counterexample: the sqlite and mysql catalog queries used by
`get_tables` differ from the ones used by `get_schema_info`. -/
theorem catalog_query_drift_cex :
    get_tables_query "sqlite" ≠ schema_tables_query "sqlite" "mydb"
    ∧ get_tables_query "mysql" ≠ schema_tables_query "mysql" "mydb" := by
  constructor
  · decide
  · decide

/-- C6 (amended): on a sqlite backend whose metadata queries all succeed,
`get_schema_info` renders exactly one block per enumerated table in
catalog order — header `Table: <name>`, then `Columns:`, one line per
column of the form `  - <name> (<type>) ` followed by the `PRIMARY KEY`
marker or by nothing (so a non-primary-key line ends with a trailing
space, not directly with the closing parenthesis), then
`Total rows: <count>` — and joins the blocks with blank-line separation
(newline-join of newline-terminated blocks). -/
theorem schema_report_format (tables : List String)
    (cols : String → List SqliteColumn) (cnt : String → Nat) (db_name : String) :
    get_schema_info "sqlite" db_name (mkOkBackend tables cols cnt)
      = String.intercalate "\n" (tables.map fun t =>
          "Table: " ++ t ++ "\nColumns:\n"
          ++ String.join ((cols (pragma_query t)).map fun c =>
              "  - " ++ c.name ++ " (" ++ c.type ++ ") "
                ++ sqlite_pk_marker c.pk ++ "\n")
          ++ "Total rows: " ++ toString (cnt (count_query "sqlite" t)) ++ "\n") :=
  get_schema_info_mkOk tables cols cnt db_name

/-- C6 counterexample: a non-primary-key column renders with a trailing
space after the closing parenthesis, so the block is not the claimed
`  - <name> (<type>)` with nothing else appended. -/
theorem schema_report_trailing_space_cex :
    get_schema_info "sqlite" "" cexBackend6
      = "Table: t\nColumns:\n  - b (TEXT) \nTotal rows: 0\n"
    ∧ get_schema_info "sqlite" "" cexBackend6
        ≠ "Table: t\nColumns:\n  - b (TEXT)\nTotal rows: 0\n" := by
  constructor
  · rfl
  · decide

/-- C7 (confirmed): `execute_query` is total and two-armed — for every
engine state, backend behavior and SQL text it returns either a
materialized table or an error value, exactly one of the two; and on a
backend failure the error value carries the backend's message text. -/
theorem execute_query_two_armed {α : Type} (engine : Option String)
    (run : String → Except String α) (query : String) :
    (((∃ df, execute_query engine run query = QueryResult.table df)
        ∧ ¬ ∃ m, execute_query engine run query = QueryResult.error m)
      ∨ ((∃ m, execute_query engine run query = QueryResult.error m)
        ∧ ¬ ∃ df, execute_query engine run query = QueryResult.table df))
    ∧ (∀ url m, engine = some url → run query = Except.error m →
        execute_query engine run query
          = QueryResult.error ("Error executing query: " ++ m)) := by
  constructor
  · cases engine with
    | none =>
      right
      refine ⟨⟨"Database connection not established.", rfl⟩, ?_⟩
      rintro ⟨df, hdf⟩
      cases hdf
    | some url =>
      cases hr : run query with
      | ok df =>
        left
        constructor
        · exact ⟨df, by unfold execute_query; rw [hr]⟩
        · rintro ⟨m, hm⟩
          unfold execute_query at hm
          rw [hr] at hm
          cases hm
      | error e =>
        right
        constructor
        · exact ⟨"Error executing query: " ++ e, by unfold execute_query; rw [hr]⟩
        · rintro ⟨df, hdf⟩
          unfold execute_query at hdf
          rw [hr] at hdf
          cases hdf
  · rintro url m rfl hm
    unfold execute_query
    rw [hm]

/-- C7 witness: a failing backend query is returned as an error value
carrying the backend message. -/
theorem execute_query_two_armed_witness :
    execute_query (α := Nat) (some "sqlite:///db") (fun _ => Except.error "syntax error")
      "SELEC 1"
      = QueryResult.error ("Error executing query: " ++ "syntax error") :=
  (execute_query_two_armed (α := Nat) (some "sqlite:///db")
    (fun _ => Except.error "syntax error") "SELEC 1").2
    "sqlite:///db" "syntax error" rfl rfl

/-- C8 (confirmed): if the per-table metadata step fails for any
enumerated table, `get_schema_info` returns the single catch-all error
string — never a partial report of the already-processed tables.  Shown
for each dialect branch. -/
theorem schema_failure_aborts :
    (∀ (db_name : String) (b : Backend) (tables : List String) (t e : String),
        b.run_names sqlite_master_tables_nosys = Except.ok tables →
        t ∈ tables → sqlite_table_step b t = Except.error e →
        get_schema_info "sqlite" db_name b
          = "Error fetching schema information: "
              ++ errOf (schema_blocks "sqlite" db_name b))
    ∧ (∀ (db_name : String) (b : Backend) (tables : List String) (t e : String),
        b.run_names (show_tables_from db_name) = Except.ok tables →
        t ∈ tables → mysql_table_step b t = Except.error e →
        get_schema_info "mysql" db_name b
          = "Error fetching schema information: "
              ++ errOf (schema_blocks "mysql" db_name b))
    ∧ (∀ (db_name : String) (b : Backend) (tables : List String) (t e : String),
        b.run_names pg_tables_listing = Except.ok tables →
        t ∈ tables → pg_table_step b t = Except.error e →
        get_schema_info "postgresql" db_name b
          = "Error fetching schema information: "
              ++ errOf (schema_blocks "postgresql" db_name b)) := by
  refine ⟨fun db_name b tables t e hn ht hf => ?_,
    fun db_name b tables t e hn ht hf => ?_,
    fun db_name b tables t e hn ht hf => ?_⟩
  · obtain ⟨m, hm⟩ := mapM_error_of_mem tables _ t e ht hf
    refine get_schema_info_of_error _ _ _ m ?_
    rw [schema_blocks_sqlite, hn]
    exact hm
  · obtain ⟨m, hm⟩ := mapM_error_of_mem tables _ t e ht hf
    refine get_schema_info_of_error _ _ _ m ?_
    rw [schema_blocks_mysql, hn]
    exact hm
  · obtain ⟨m, hm⟩ := mapM_error_of_mem tables _ t e ht hf
    refine get_schema_info_of_error _ _ _ m ?_
    rw [schema_blocks_pg, hn]
    exact hm

/-- C8 witness: a backend whose column pragma raises makes the whole
report collapse to the single error string. -/
theorem schema_failure_aborts_witness :
    get_schema_info "sqlite" "" failBackend
      = "Error fetching schema information: "
          ++ errOf (schema_blocks "sqlite" "" failBackend) :=
  schema_failure_aborts.1 "" failBackend ["t"] "t" "boom" rfl
    (List.mem_singleton.mpr rfl) rfl

/-- C9 (confirmed): every table's row count is fetched with a
`SELECT COUNT(*)` query, whose table identifier is single-quoted for
SQLITE and interpolated bare for MYSQL and POSTGRESQL; and the sqlite
report indeed reports, per table, the backend's answer to exactly that
query string. -/
theorem count_query_quoting (t : String) :
    count_query "sqlite" t = "SELECT COUNT(*) as count FROM \x27" ++ t ++ "\x27;"
    ∧ count_query "mysql" t = "SELECT COUNT(*) as count FROM " ++ t ++ ";"
    ∧ count_query "postgresql" t = "SELECT COUNT(*) as count FROM " ++ t ++ ";"
    ∧ (∀ (cols : String → List SqliteColumn) (cnt : String → Nat)
        (db_name : String),
        get_schema_info "sqlite" db_name (mkOkBackend [t] cols cnt)
          = table_block t ((cols (pragma_query t)).map render_sqlite_col)
              (cnt (count_query "sqlite" t))) := by
  refine ⟨rfl, ?_, ?_, fun cols cnt db_name => ?_⟩
  · unfold count_query
    rw [if_neg (by decide)]
  · unfold count_query
    rw [if_neg (by decide)]
  · rw [get_schema_info_mkOk]
    rfl

/-- C10 (confirmed): with no engine (as after an unsupported dialect tag
made `_create_engine` return `None`), `execute_query` returns the exact
string `Database connection not established.` as a value for every query
and every backend — so no backend access happens — and `close` performs no
action. -/
theorem engine_none_inert {α : Type} :
    (∀ (run : String → Except String α) (query : String),
      execute_query none run query
        = QueryResult.error "Database connection not established.")
    ∧ close none = []
    ∧ (∀ (p h n u pw po : Option String),
        create_engine "mongodb" p h n u pw po = none) :=
  ⟨fun _ _ => rfl, rfl, fun _ _ _ _ _ _ => rfl⟩
